import Mathlib

/-!
Shallow embedding of `src/cocotb/utils.py` (time-unit conversion helpers,
a parametrized-singleton construction cache, console-color detection and
traceback trimming), together with theorems checking the specification's
claims about that module.

Python numeric time values are modelled as exact rationals (the module's
exact-decimal path); Python exceptions are modelled with `Except` over an
explicit error type; the process-global precision cache and the weak-value
instance dictionary are modelled as explicit state.
-/

namespace Cocotb

/-- The kinds of Python exceptions the module can raise. -/
inductive PyError where
  | valueError (msg : String)
  | assertionError
  | attributeError
  | notImplementedError
  deriving DecidableEq, Repr

/-- Python's `str.lower()` on a single character, for the ASCII range the
unit names live in. -/
def pyLowerChar (c : Char) : Char :=
  if 'A' ≤ c ∧ c ≤ 'Z' then Char.ofNat (c.toNat + 32) else c

/-- Python's `str.lower()` (`units.lower()` in `_get_log_time_scale`),
restricted to ASCII strings. -/
def pyLower (s : String) : String :=
  String.mk (s.data.map pyLowerChar)

/-- The six scaled time units of the scale table in `_get_log_time_scale`. -/
def scaleUnits : List String := ["fs", "ps", "ns", "us", "ms", "sec"]

/-- The `scale` dictionary of `_get_log_time_scale`: base-10 exponent
relative to seconds for each recognized scaled unit. -/
def scaleLookup (u : String) : Option Int :=
  if u = "fs" then some (-15)
  else if u = "ps" then some (-12)
  else if u = "ns" then some (-9)
  else if u = "us" then some (-6)
  else if u = "ms" then some (-3)
  else if u = "sec" then some 0
  else none

/-- Model of `_get_log_time_scale(units)`: lowercase the unit name, look it up in the
scale table, and raise `ValueError` naming the bad unit when absent. -/
def get_log_time_scale (units : String) : Except PyError Int :=
  match scaleLookup (pyLower units) with
  | some s => Except.ok s
  | none => Except.error (PyError.valueError ("Invalid unit (" ++ (units ++ ") provided")))

/-- Model of `_ldexp10(frac, exp)`: multiply by `10**exp` when `exp > 0`, otherwise
divide by `10**-exp` (exact on rationals, as on Python `Decimal`/`Fraction`). -/
def ldexp10 (frac : ℚ) (exp : Int) : ℚ :=
  if exp > 0 then frac * ((10 : ℚ) ^ exp.toNat)
  else frac / ((10 : ℚ) ^ (-exp).toNat)

/-- Model of `get_time_from_sim_steps(steps, units)`: scale the step count by
`10 ** (precision - scale[units])`. -/
def get_time_from_sim_steps (prec : Int) (steps : ℚ) (units : String) :
    Except PyError ℚ :=
  match get_log_time_scale units with
  | Except.ok s => Except.ok (ldexp10 steps (prec - s))
  | Except.error e => Except.error e

/-- Python's built-in `round` on exact numeric types: round half to even. -/
def pyRound (q : ℚ) : Int :=
  let f := ⌊q⌋
  let r := q - (f : ℚ)
  if r < 1 / 2 then f
  else if 1 / 2 < r then f + 1
  else if f % 2 = 0 then f else f + 1

/-- The message of the `ValueError` raised by `get_sim_steps` under
`round_mode="error"` when the scaled value is not an integer. -/
def reprErrMsg (time : ℚ) (units : String) (prec : Int) : String :=
  "Unable to accurately represent " ++
    (toString time ++ ("(" ++ (units ++ (") with the simulator precision of 1e" ++ toString prec))))

/-- The rounding stage of `get_sim_steps`: dispatch on `round_mode` with the
already-scaled value; `"error"` requires the value to be an integer. -/
def roundStage (prec : Int) (time : ℚ) (units : String) (round_mode : String)
    (result : ℚ) : Except PyError Int :=
  if round_mode = "error" then
    if (⌊result⌋ : ℚ) ≠ result then
      Except.error (PyError.valueError (reprErrMsg time units prec))
    else
      Except.ok ⌊result⌋
  else if round_mode = "ceil" then
    Except.ok ⌈result⌉
  else if round_mode = "round" then
    Except.ok (pyRound result)
  else if round_mode = "floor" then
    Except.ok ⌊result⌋
  else
    Except.error (PyError.valueError ("Invalid round_mode specifier: " ++ round_mode))

/-- Model of `get_sim_steps(time, units, round_mode)`: scale `time` into simulator
steps (no scaling when `units == "step"`), then apply the rounding mode. -/
def get_sim_steps (prec : Int) (time : ℚ) (units : String)
    (round_mode : String) : Except PyError Int :=
  if units ≠ "step" then
    match get_log_time_scale units with
    | Except.ok s => roundStage prec time units round_mode (ldexp10 time (s - prec))
    | Except.error e => Except.error e
  else
    roundStage prec time units round_mode time

/-- Model of `get_sim_time(units)`: combine the two 32-bit words from the simulator
into one step count; convert via `get_time_from_sim_steps` unless the unit
is `"step"`. -/
def get_sim_time (prec : Int) (timeh timel : Nat) (units : String) :
    Except PyError ℚ :=
  let result : Nat := timeh <<< 32 ||| timel
  if units ≠ "step" then get_time_from_sim_steps prec (result : ℚ) units
  else Except.ok (result : ℚ)

/-! ### Precision cache (`_get_simulator_precision`)

The Python function queries `simulator.get_precision()` once and then
replaces its own global binding by a closure over the fetched value, so the
simulator is consulted at most once per process.  The cache is modelled as
an `Option Int` (empty before the first call); `simAt i` is the value the
external simulator would report if it were queried at the `i`-th call, so a
re-fetch would be visible in the trace. -/

/-- One call to `_get_simulator_precision`: returns the precision, whether
the external simulator was queried by this call, and the updated cache. -/
def precisionCall (cache : Option Int) (sim : Int) : Int × Bool × Option Int :=
  match cache with
  | some p => (p, false, some p)
  | none => (sim, true, some sim)

/-- The trace of the first `n` calls to `_get_simulator_precision`, starting
from the empty cache: the list of (returned value, fetched?) pairs together
with the final cache. -/
def precisionTrace (simAt : Nat → Int) : Nat → List (Int × Bool) × Option Int
  | 0 => ([], none)
  | n + 1 =>
    let t := precisionTrace simAt n
    let r := precisionCall t.2 (simAt n)
    (t.1 ++ [(r.1, r.2.1)], r.2.2)

/-! ### Parametrized singleton (`ParametrizedSingleton`)

The metaclass keeps a `WeakValueDictionary` from normalized keys to live
instances.  Instances are modelled by numeric identities (`Nat`), the weak
dictionary by a partial map holding exactly the live registered instances,
and `super().__call__` (actual construction) by drawing a fresh identity. -/

/-- The state attached to a class using `ParametrizedSingleton`:
the weak-value dictionary of live instances plus a fresh-identity supply. -/
structure SingletonState (κ : Type) where
  instances : κ → Option Nat
  nextId : Nat

/-- The outcome of one `ParametrizedSingleton.__call__`: the returned
object's identity, whether `super().__call__` (construction and
initialization) ran, and the updated state. -/
structure CallResult (κ : Type) where
  obj : Nat
  ran_init : Bool
  state : SingletonState κ

/-- Model of `ParametrizedSingleton.__call__(cls, *args)`: compute the key with
`__singleton_key__` (`keyfn`), return the registered live instance when one
exists, otherwise construct, register and return a fresh instance. -/
def singletonCall {α κ : Type} [DecidableEq κ] (keyfn : α → κ)
    (s : SingletonState κ) (args : α) : CallResult κ :=
  let key := keyfn args
  match s.instances key with
  | some inst => ⟨inst, false, s⟩
  | none =>
    ⟨s.nextId, true,
      ⟨fun k => if k = key then some s.nextId else s.instances k, s.nextId + 1⟩⟩

/-! ### Color output decision (`want_color_output`) -/

/-- The process environment observed by `want_color_output`: whether
`sys.stdout.isatty()`, and the values (if set) of the three environment
variables it reads. -/
structure ColorEnv where
  isatty : Bool
  no_color : Option String
  cocotb_ansi_output : Option String
  gui : Option String
  deriving DecidableEq, Repr

/-- Model of `want_color_output()`: default to the TTY status, force off when
`NO_COLOR` is set at all, force on when `COCOTB_ANSI_OUTPUT == "1"`, and
finally force off when `GUI == "1"`. -/
def want_color_output (e : ColorEnv) : Bool :=
  let w1 := e.isatty
  let w2 := if e.no_color.isSome then false else w1
  let w3 := if e.cocotb_ansi_output.getD "0" = "1" then true else w2
  if e.gui.getD "0" = "1" then false else w3

/-! ### Traceback trimming (`remove_traceback_frames`)

A Python traceback is modelled as the list of its frames' code names
(`tb.tb_frame.f_code.co_name`), front first; `None` is the empty list.
An exception instance carries its `__traceback__`; a `sys.exc_info()`
triple carries the exception type name, the value and the traceback. -/

/-- The three input shapes accepted by `remove_traceback_frames`:
a raw traceback, an exception instance, or an `exc_info` triple. -/
inductive TbInput where
  | rawTb (t : List String)
  | excInst (payload : String) (t : List String)
  | excInfo (ty : String) (payload : String) (t : List String)
  deriving DecidableEq, Repr

/-- The base case of `remove_traceback_frames`: walk `frame_names`, assert
each matches the front frame and drop it.  Exhausting the traceback raises
`AttributeError` (`None.tb_frame`); a name mismatch fails the `assert`. -/
def stripFrames (tb : List String) : List String → Except PyError (List String)
  | [] => Except.ok tb
  | n :: ns =>
    match tb with
    | [] => Except.error PyError.attributeError
    | f :: t => if f = n then stripFrames t ns else Except.error PyError.assertionError

/-- Model of `remove_traceback_frames(tb_or_exc, frame_names)`: dispatch on the input
shape, strip the named frames from the front of the traceback, and rebuild
the same shape around the shortened traceback. -/
def remove_traceback_frames (tb_or_exc : TbInput) (frame_names : List String) :
    Except PyError TbInput :=
  match tb_or_exc with
  | TbInput.excInst p t =>
    match stripFrames t frame_names with
    | Except.ok t2 => Except.ok (TbInput.excInst p t2)
    | Except.error e => Except.error e
  | TbInput.excInfo ty p t =>
    match stripFrames t frame_names with
    | Except.ok t2 => Except.ok (TbInput.excInfo ty p t2)
    | Except.error e => Except.error e
  | TbInput.rawTb t =>
    match stripFrames t frame_names with
    | Except.ok t2 => Except.ok (TbInput.rawTb t2)
    | Except.error e => Except.error e

/-- The traceback carried by a `remove_traceback_frames` input. -/
def TbInput.tbOf : TbInput → List String
  | TbInput.rawTb t => t
  | TbInput.excInst _ t => t
  | TbInput.excInfo _ _ t => t

/-- Replace the traceback carried by a `remove_traceback_frames` input,
keeping the shape and the other fields. -/
def TbInput.withTb : TbInput → List String → TbInput
  | TbInput.rawTb _, t => TbInput.rawTb t
  | TbInput.excInst p _, t => TbInput.excInst p t
  | TbInput.excInfo ty p _, t => TbInput.excInfo ty p t

/-! ### Helper lemmas -/

lemma ldexp10_eq_zpow (f : ℚ) (e : Int) : ldexp10 f e = f * (10 : ℚ) ^ e := by
  unfold ldexp10
  by_cases h : e > 0
  · rw [if_pos h, ← zpow_natCast, Int.toNat_of_nonneg h.le]
  · rw [if_neg h, div_eq_mul_inv, ← zpow_natCast,
      Int.toNat_of_nonneg (by omega : (0 : Int) ≤ -e), zpow_neg, inv_inv]

lemma ldexp10_roundtrip (f : ℚ) (a b : Int) (h : a + b = 0) :
    ldexp10 (ldexp10 f a) b = f := by
  rw [ldexp10_eq_zpow, ldexp10_eq_zpow, mul_assoc,
    ← zpow_add₀ (by norm_num : (10 : ℚ) ≠ 0), h, zpow_zero, mul_one]

lemma pyRound_intCast (n : Int) : pyRound (n : ℚ) = n := by
  norm_num [pyRound]

lemma roundStage_error_intCast (prec : Int) (t : ℚ) (U : String) (n : Int) :
    roundStage prec t U "error" ((n : ℚ)) = Except.ok n := by
  simp [roundStage]

lemma floor_cast_eq_iff (r : ℚ) : ((⌊r⌋ : ℚ) = r) ↔ ∃ n : Int, (n : ℚ) = r := by
  constructor
  · intro h
    exact ⟨⌊r⌋, h⟩
  · rintro ⟨n, rfl⟩
    rw [Int.floor_intCast]

lemma stripFrames_append (ns : List String) : ∀ rest : List String,
    stripFrames (ns ++ rest) ns = Except.ok rest := by
  induction ns with
  | nil => intro rest; simp [stripFrames]
  | cons n ns ih => intro rest; simp [stripFrames, ih]

lemma stripFrames_mismatch (pre : List String) (f n : String)
    (t ns2 : List String) (hfn : f ≠ n) :
    stripFrames (pre ++ f :: t) (pre ++ n :: ns2) = Except.error PyError.assertionError := by
  induction pre with
  | nil => simp [stripFrames, hfn]
  | cons p pre ih => simp [stripFrames, ih]

lemma get_time_from_sim_steps_ok (prec : Int) (t : ℚ) (U : String) (s : Int)
    (h1 : get_log_time_scale U = Except.ok s) :
    get_time_from_sim_steps prec t U = Except.ok (ldexp10 t (prec - s)) := by
  simp [get_time_from_sim_steps, h1]

lemma get_sim_steps_scaled (prec : Int) (t : ℚ) (U : String) (s : Int) (rm : String)
    (h1 : get_log_time_scale U = Except.ok s) (h2 : U ≠ "step") :
    get_sim_steps prec t U rm = roundStage prec t U rm (ldexp10 t (s - prec)) := by
  simp [get_sim_steps, h2, h1]

lemma scaleUnits_log (U : String) (hU : U ∈ scaleUnits) :
    U ≠ "step" ∧ ∃ s, get_log_time_scale U = Except.ok s := by
  fin_cases hU <;> exact ⟨by decide, ⟨_, rfl⟩⟩

/-! ### Claim theorems -/

/-- C1: for every unit U in {fs, ps, ns, us, ms, sec} and every integer step
count S, converting S to time with `get_time_from_sim_steps` and back with
`get_sim_steps` under `round_mode="error"` returns exactly S (round-trip
law; in the exact-arithmetic model every integer step count is exactly
representable, so the law holds unconditionally). -/
theorem C1_roundtrip (prec : Int) (S : Int) (U : String) (hU : U ∈ scaleUnits)
    (T : ℚ) (hT : get_time_from_sim_steps prec ((S : Int) : ℚ) U = Except.ok T) :
    get_sim_steps prec T U "error" = Except.ok S := by
  obtain ⟨h2, s, h1⟩ := scaleUnits_log U hU
  rw [get_time_from_sim_steps_ok prec _ U s h1] at hT
  injection hT with hT
  subst hT
  rw [get_sim_steps_scaled prec _ U s "error" h1 h2,
    ldexp10_roundtrip _ _ _ (by ring), roundStage_error_intCast]

theorem C1_roundtrip_witness :
    get_sim_steps (-12) (ldexp10 ((3 : Int) : ℚ) (-12 - -9)) "ns" "error" =
      Except.ok 3 :=
  C1_roundtrip (-12) 3 "ns" (by decide) (ldexp10 ((3 : Int) : ℚ) (-12 - -9)) rfl

/-- C2 counterexample: `get_time_from_sim_steps(S, "step")` does not return
S unchanged — `"step"` is not in the scale table, so the call raises
`ValueError` (only `get_sim_time` short-circuits the `"step"` unit before
calling the converter). -/
theorem C2_counterexample :
    get_time_from_sim_steps (-12) ((5 : Int) : ℚ) "step" =
        Except.error (PyError.valueError "Invalid unit (step) provided")
    ∧ get_time_from_sim_steps (-12) ((5 : Int) : ℚ) "step" ≠
        Except.ok ((5 : Int) : ℚ) := by
  refine ⟨rfl, fun h => ?_⟩
  have h2 : (Except.error (PyError.valueError "Invalid unit (step) provided") :
      Except PyError ℚ) = Except.ok ((5 : Int) : ℚ) := h
  exact Except.noConfusion h2

/-- C2 amended: the unit `"step"` is the identity where the code handles it:
`get_sim_time` with `"step"` returns the raw step count unchanged, and
`get_sim_steps` with `"step"` applies no scaling (integer inputs pass
through unchanged under every valid rounding mode); a direct
`get_time_from_sim_steps` call with `"step"` instead raises `ValueError`. -/
theorem C2_step_identity (prec : Int) (timeh timel : Nat) (n : Int) (rm : String)
    (hrm : rm ∈ ["error", "ceil", "round", "floor"]) :
    get_sim_time prec timeh timel "step" =
        Except.ok ((timeh <<< 32 ||| timel : Nat) : ℚ)
    ∧ get_sim_steps prec ((n : Int) : ℚ) "step" rm = Except.ok n
    ∧ get_time_from_sim_steps prec ((n : Int) : ℚ) "step" =
        Except.error (PyError.valueError "Invalid unit (step) provided") := by
  refine ⟨rfl, ?_, rfl⟩
  fin_cases hrm <;> simp [get_sim_steps, roundStage, pyRound_intCast]

theorem C2_step_identity_witness :
    get_sim_time (-12) 1 2 "step" = Except.ok ((1 <<< 32 ||| 2 : Nat) : ℚ)
    ∧ get_sim_steps (-12) ((5 : Int) : ℚ) "step" "round" = Except.ok 5
    ∧ get_time_from_sim_steps (-12) ((5 : Int) : ℚ) "step" =
        Except.error (PyError.valueError "Invalid unit (step) provided") :=
  C2_step_identity (-12) 1 2 5 "round" (by decide)

/-- C9: even with `units="step"` (no scaling), `get_sim_steps` still applies
the rounding mode to the input: a non-integer value raises `ValueError`
under `round_mode="error"`, and is rounded by `ceil`, Python `round`
(half-to-even) or `floor` under the other modes — `"step"` is not a pure
identity for fractional inputs. -/
theorem C9_step_round_mode (prec : Int) (t : ℚ) (h : ∀ n : Int, (n : ℚ) ≠ t) :
    get_sim_steps prec t "step" "error" =
        Except.error (PyError.valueError (reprErrMsg t "step" prec))
    ∧ get_sim_steps prec t "step" "ceil" = Except.ok ⌈t⌉
    ∧ get_sim_steps prec t "step" "round" = Except.ok (pyRound t)
    ∧ get_sim_steps prec t "step" "floor" = Except.ok ⌊t⌋ := by
  have hfl : (⌊t⌋ : ℚ) ≠ t := fun hc => h ⌊t⌋ hc
  exact ⟨by simp [get_sim_steps, roundStage, hfl], by simp [get_sim_steps, roundStage],
    by simp [get_sim_steps, roundStage], by simp [get_sim_steps, roundStage]⟩

theorem C9_step_round_mode_witness :
    get_sim_steps (-12) (5 / 2) "step" "error" =
        Except.error (PyError.valueError (reprErrMsg (5 / 2) "step" (-12)))
    ∧ get_sim_steps (-12) (5 / 2) "step" "round" = Except.ok 2 := by
  have h : ∀ n : Int, (n : ℚ) ≠ 5 / 2 := by
    intro n hn
    have h2 : ((2 * n : Int) : ℚ) = ((5 : Int) : ℚ) := by push_cast; rw [hn]; ring
    have h3 : (2 * n : Int) = 5 := by exact_mod_cast h2
    omega
  obtain ⟨he, _, hr, _⟩ := C9_step_round_mode (-12) (5 / 2) h
  refine ⟨he, hr.trans ?_⟩
  norm_num [pyRound]

/-- C3: for every time value and recognized scaled unit, `get_sim_steps`
under `round_mode="error"` raises an error iff the scaled step value is not
an integer; the only error raised is a `ValueError` whose message is built
from the offending time, the unit and the precision exponent (in that
order); and on success the result is the exact integer step count. -/
theorem C3_error_iff (prec : Int) (t : ℚ) (U : String) (s : Int)
    (h1 : get_log_time_scale U = Except.ok s) (h2 : U ≠ "step") :
    ((∃ e, get_sim_steps prec t U "error" = Except.error e) ↔
        ¬ ∃ n : Int, (n : ℚ) = ldexp10 t (s - prec))
    ∧ (∀ e, get_sim_steps prec t U "error" = Except.error e →
        e = PyError.valueError (reprErrMsg t U prec))
    ∧ (∀ n : Int, (n : ℚ) = ldexp10 t (s - prec) →
        get_sim_steps prec t U "error" = Except.ok n)
    ∧ ∃ a b c : String,
        reprErrMsg t U prec =
          a ++ (toString t ++ (b ++ (U ++ (c ++ toString prec)))) := by
  rw [get_sim_steps_scaled prec t U s "error" h1 h2]
  by_cases hc : (⌊ldexp10 t (s - prec)⌋ : ℚ) = ldexp10 t (s - prec)
  · have hok : roundStage prec t U "error" (ldexp10 t (s - prec)) =
        Except.ok ⌊ldexp10 t (s - prec)⌋ := by simp [roundStage, hc]
    rw [hok]
    refine ⟨?_, ?_, ?_, ⟨_, _, _, rfl⟩⟩
    · constructor
      · rintro ⟨e, he⟩
        exact absurd he (by simp)
      · intro hne
        exact absurd ((floor_cast_eq_iff _).mp hc) hne
    · intro e he
      exact absurd he (by simp)
    · intro n hn
      have : ⌊ldexp10 t (s - prec)⌋ = n := by rw [← hn, Int.floor_intCast]
      rw [this]
  · have herr : roundStage prec t U "error" (ldexp10 t (s - prec)) =
        Except.error (PyError.valueError (reprErrMsg t U prec)) := by
      simp [roundStage, hc]
    rw [herr]
    refine ⟨?_, ?_, ?_, ⟨_, _, _, rfl⟩⟩
    · constructor
      · intro _
        exact fun hn => hc ((floor_cast_eq_iff _).mpr hn)
      · intro _
        exact ⟨_, rfl⟩
    · intro e he
      injection he with he
      exact he.symm
    · intro n hn
      exact absurd ((floor_cast_eq_iff _).mpr ⟨n, hn⟩) hc

theorem C3_error_iff_witness :
    get_sim_steps (-12) ((5 : Int) : ℚ) "ns" "error" = Except.ok 5000 := by
  refine (C3_error_iff (-12) ((5 : Int) : ℚ) "ns" (-9) rfl (by decide)).2.2.1 5000 ?_
  norm_num [ldexp10, show Int.toNat 3 = 3 from rfl]

/-- C4 counterexample: unit names are not case-insensitive for every
recognized unit — `"step"` is compared case-sensitively by `get_sim_steps`,
so the case variant `"STEP"` raises `ValueError` while `"step"` succeeds. -/
theorem C4_counterexample :
    get_sim_steps (-12) ((5 : Int) : ℚ) "STEP" "error" =
        Except.error (PyError.valueError "Invalid unit (STEP) provided")
    ∧ get_sim_steps (-12) ((5 : Int) : ℚ) "step" "error" = Except.ok 5
    ∧ get_sim_steps (-12) ((5 : Int) : ℚ) "STEP" "error" ≠
        get_sim_steps (-12) ((5 : Int) : ℚ) "step" "error" := by
  have hstep : get_sim_steps (-12) ((5 : Int) : ℚ) "step" "error" = Except.ok 5 := by
    simp [get_sim_steps, roundStage]
  refine ⟨rfl, hstep, ?_⟩
  rw [hstep]
  intro h
  have h2 : (Except.error (PyError.valueError "Invalid unit (STEP) provided") :
      Except PyError Int) = Except.ok 5 := h
  exact Except.noConfusion h2

lemma scaleLookup_mem (u : String) (s : Int) (h : scaleLookup u = some s) :
    u ∈ scaleUnits := by
  unfold scaleLookup at h
  split_ifs at h <;> simp_all [scaleUnits]

lemma roundStage_ok_iff (prec : Int) (t : ℚ) (V U rm : String) (r : ℚ) (n : Int) :
    roundStage prec t V rm r = Except.ok n ↔ roundStage prec t U rm r = Except.ok n := by
  unfold roundStage
  split_ifs <;> simp

/-- C4 amended: the six scaled unit names are case-insensitive — a unit
string whose lowercasing is one of them converts exactly like the lowercase
form in all three operations (identically for `get_time_from_sim_steps` and
`get_sim_time`, and with the same success results for `get_sim_steps`) —
whereas `"step"` is matched case-sensitively; an unrecognized unit name
raises a `ValueError` naming the bad unit string. -/
theorem C4_case_insensitive (V U : String) (hVU : pyLower V = U)
    (hU : U ∈ scaleUnits) (prec : Int) (t : ℚ) (rm : String) (timeh timel : Nat) :
    get_time_from_sim_steps prec t V = get_time_from_sim_steps prec t U
    ∧ (∀ n : Int, get_sim_steps prec t V rm = Except.ok n ↔
        get_sim_steps prec t U rm = Except.ok n)
    ∧ get_sim_time prec timeh timel V = get_sim_time prec timeh timel U
    ∧ (∀ W : String, pyLower W ∉ scaleUnits →
        get_log_time_scale W =
          Except.error (PyError.valueError ("Invalid unit (" ++ (W ++ ") provided")))) := by
  have hUprops : pyLower U = U ∧ U ≠ "step" ∧ ∃ s, scaleLookup U = some s := by
    fin_cases hU <;> exact ⟨by decide, by decide, ⟨_, rfl⟩⟩
  obtain ⟨hUU, hUstep, s, hs⟩ := hUprops
  have hVok : get_log_time_scale V = Except.ok s := by
    unfold get_log_time_scale
    rw [hVU, hs]
  have hUok : get_log_time_scale U = Except.ok s := by
    unfold get_log_time_scale
    rw [hUU, hs]
  have hVstep : V ≠ "step" := by
    intro hcon
    rw [hcon] at hVU
    have hps : pyLower "step" = "step" := by decide
    exact hUstep (hVU.symm.trans hps)
  refine ⟨?_, ?_, ?_, ?_⟩
  · rw [get_time_from_sim_steps_ok prec t V s hVok,
      get_time_from_sim_steps_ok prec t U s hUok]
  · intro n
    rw [get_sim_steps_scaled prec t V s rm hVok hVstep,
      get_sim_steps_scaled prec t U s rm hUok hUstep]
    exact roundStage_ok_iff prec t V U rm _ n
  · simp only [get_sim_time, if_neg (not_not_intro hVstep), if_neg (not_not_intro hUstep),
      ite_not]
    rw [if_neg hVstep, if_neg hUstep,
      get_time_from_sim_steps_ok prec _ V s hVok,
      get_time_from_sim_steps_ok prec _ U s hUok]
  · intro W hW
    unfold get_log_time_scale
    cases hlk : scaleLookup (pyLower W) with
    | none => rfl
    | some s2 => exact absurd (scaleLookup_mem _ s2 hlk) hW

theorem C4_case_insensitive_witness :
    get_time_from_sim_steps (-12) ((5 : Int) : ℚ) "NS" =
      get_time_from_sim_steps (-12) ((5 : Int) : ℚ) "ns" :=
  (C4_case_insensitive "NS" "ns" (by decide) (by decide) (-12) ((5 : Int) : ℚ)
    "error" 0 0).1

/-- C5: under the `ParametrizedSingleton` metaclass, a second construction
call whose arguments normalize to the same key as a first call — made on the
state the first call produced, i.e. while the first instance is still live —
returns the identical object without running the constructor again; a call
that finds a live instance under its key returns it with no state change;
and a call that finds none constructs a fresh instance, registers it under
the key and returns it. -/
theorem C5_singleton_reuse {α κ : Type} [DecidableEq κ] (keyfn : α → κ)
    (s : SingletonState κ) (a b : α) (hab : keyfn a = keyfn b) :
    ((singletonCall keyfn (singletonCall keyfn s a).state b).obj =
        (singletonCall keyfn s a).obj
      ∧ (singletonCall keyfn (singletonCall keyfn s a).state b).ran_init = false)
    ∧ (∀ i, s.instances (keyfn a) = some i →
        singletonCall keyfn s a = ⟨i, false, s⟩)
    ∧ (s.instances (keyfn a) = none →
        (singletonCall keyfn s a).obj = s.nextId
        ∧ (singletonCall keyfn s a).ran_init = true
        ∧ (singletonCall keyfn s a).state.instances (keyfn a) =
            some (singletonCall keyfn s a).obj) := by
  cases hcase : s.instances (keyfn a) with
  | some i => simp [singletonCall, ← hab, hcase]
  | none => simp [singletonCall, ← hab, hcase]

theorem C5_singleton_reuse_witness :
    ((singletonCall (fun n : Nat => n)
        (singletonCall (fun n : Nat => n) ⟨fun _ => none, 0⟩ 7).state 7).obj =
      (singletonCall (fun n : Nat => n) ⟨fun _ => none, 0⟩ 7).obj)
    ∧ (singletonCall (fun n : Nat => n)
        (singletonCall (fun n : Nat => n) ⟨fun _ => none, 0⟩ 7).state 7).ran_init = false :=
  (C5_singleton_reuse (fun n : Nat => n) ⟨fun _ => none, 0⟩ 7 7 rfl).1

/-- C6: the color-output decision — false without a TTY and with no relevant
environment variables set; true with a TTY and none set; false with a TTY
once `NO_COLOR` is set; true once `COCOTB_ANSI_OUTPUT` is `"1"` even without
a TTY (and even with `NO_COLOR` set); and false whenever `GUI` is `"1"`,
regardless of every other condition. -/
theorem C6_want_color_cases :
    want_color_output ⟨false, none, none, none⟩ = false
    ∧ want_color_output ⟨true, none, none, none⟩ = true
    ∧ (∀ v, want_color_output ⟨true, some v, none, none⟩ = false)
    ∧ (∀ tty nc, want_color_output ⟨tty, nc, some "1", none⟩ = true)
    ∧ (∀ tty nc ansi, want_color_output ⟨tty, nc, ansi, some "1"⟩ = false) := by
  refine ⟨by decide, by decide, ?_, ?_, ?_⟩ <;> intros <;> simp [want_color_output]

/-- C10: `NO_COLOR` takes effect whenever it is set to any value at all
(including `"0"` and the empty string), while `COCOTB_ANSI_OUTPUT` and `GUI`
only take effect when their value is exactly `"1"` (any other value behaves
like the variable being unset); in particular `COCOTB_ANSI_OUTPUT="1"`
overrides a set `NO_COLOR`. -/
theorem C10_env_value_semantics :
    (∀ tty v, want_color_output ⟨tty, some v, none, none⟩ = false)
    ∧ (∀ tty nc g v, v ≠ "1" →
        want_color_output ⟨tty, nc, some v, g⟩ = want_color_output ⟨tty, nc, none, g⟩)
    ∧ (∀ tty nc ansi v, v ≠ "1" →
        want_color_output ⟨tty, nc, ansi, some v⟩ =
          want_color_output ⟨tty, nc, ansi, none⟩)
    ∧ (∀ tty v, want_color_output ⟨tty, some v, some "1", none⟩ = true) := by
  refine ⟨?_, ?_, ?_, ?_⟩ <;> intros <;> simp_all [want_color_output]

theorem C10_env_value_semantics_witness :
    want_color_output ⟨true, some "0", none, none⟩ = false
    ∧ want_color_output ⟨true, none, some "0", none⟩ =
        want_color_output ⟨true, none, none, none⟩
    ∧ want_color_output ⟨true, none, none, some "0"⟩ =
        want_color_output ⟨true, none, none, none⟩
    ∧ want_color_output ⟨false, some "", some "1", none⟩ = true :=
  ⟨C10_env_value_semantics.1 true "0",
    C10_env_value_semantics.2.1 true none none "0" (by decide),
    C10_env_value_semantics.2.2.1 true none none "0" (by decide),
    C10_env_value_semantics.2.2.2 false ""⟩

lemma precisionTrace_invariant (simAt : Nat → Int) (n : Nat) (hn : 0 < n) :
    (precisionTrace simAt n).2 = some (simAt 0)
    ∧ (precisionTrace simAt n).1.countP (fun x => x.2) = 1
    ∧ (∀ x ∈ (precisionTrace simAt n).1, x.1 = simAt 0)
    ∧ (precisionTrace simAt n).1.length = n := by
  induction n with
  | zero => omega
  | succ m ih =>
    cases Nat.eq_zero_or_pos m with
    | inl h0 =>
      subst h0
      simp [precisionTrace, precisionCall]
    | inr hm =>
      obtain ⟨hc, hcount, hall, hlen⟩ := ih hm
      refine ⟨?_, ?_, ?_, ?_⟩
      · simp [precisionTrace, hc, precisionCall]
      · simp [precisionTrace, hc, precisionCall, List.countP_append, hcount]
      · intro x hx
        simp only [precisionTrace, hc, precisionCall, List.mem_append,
          List.mem_singleton] at hx
        rcases hx with h | h
        · exact hall x h
        · rw [h]
      · simp [precisionTrace, hc, precisionCall, hlen]

/-- C7: the simulator precision is fetched from the external engine at most
once — in any sequence of `n ≥ 1` calls starting from the empty cache,
exactly one call (the first) queries the simulator, every call returns the
value fetched by the first call, and the very first call both queries and
caches it. -/
theorem C7_precision_fetched_once (simAt : Nat → Int) (n : Nat) (hn : 0 < n) :
    (precisionTrace simAt n).1.countP (fun x => x.2) = 1
    ∧ (∀ x ∈ (precisionTrace simAt n).1, x.1 = simAt 0)
    ∧ precisionTrace simAt 1 = ([(simAt 0, true)], some (simAt 0)) := by
  obtain ⟨_, h2, h3, _⟩ := precisionTrace_invariant simAt n hn
  exact ⟨h2, h3, by simp [precisionTrace, precisionCall]⟩

theorem C7_precision_fetched_once_witness :
    (precisionTrace (fun _ => (-12 : Int)) 3).1.countP (fun x => x.2) = 1 :=
  (C7_precision_fetched_once (fun _ => (-12 : Int)) 3 (by decide)).1

/-- C8: `remove_traceback_frames` accepts a raw traceback, an exception
instance or an `exc_info` triple, and returns the same shape with the given
ordered list of named frames stripped from the front of its traceback; if
an expected frame name does not match the actual frame at its position, it
fails with the assertion error. -/
theorem C8_remove_frames (input : TbInput) (ns rest : List String) :
    (TbInput.tbOf input = ns ++ rest →
        remove_traceback_frames input ns = Except.ok (TbInput.withTb input rest))
    ∧ (∀ pre f t n ns2,
        TbInput.tbOf input = pre ++ f :: t → ns = pre ++ n :: ns2 → f ≠ n →
        remove_traceback_frames input ns = Except.error PyError.assertionError) := by
  constructor
  · intro h
    cases input <;>
      (simp only [TbInput.tbOf] at h;
       simp [remove_traceback_frames, TbInput.withTb, h, stripFrames_append])
  · intro pre f t n ns2 h1 h2 hfn
    subst h2
    cases input <;>
      (simp only [TbInput.tbOf] at h1;
       simp [remove_traceback_frames, h1, stripFrames_mismatch pre f n t ns2 hfn])

theorem C8_remove_frames_witness :
    remove_traceback_frames (TbInput.excInfo "RuntimeError" "boom"
        ["outer", "inner", "user"]) ["outer"] =
      Except.ok (TbInput.excInfo "RuntimeError" "boom" ["inner", "user"])
    ∧ remove_traceback_frames (TbInput.rawTb ["a", "c"]) ["a", "b"] =
      Except.error PyError.assertionError :=
  ⟨(C8_remove_frames (TbInput.excInfo "RuntimeError" "boom"
      ["outer", "inner", "user"]) ["outer"] ["inner", "user"]).1 rfl,
    (C8_remove_frames (TbInput.rawTb ["a", "c"]) ["a", "b"] []).2
      ["a"] "c" [] "b" [] rfl rfl (by decide)⟩

end Cocotb
